import Mathlib

set_option maxHeartbeats 1000000

/-!
Shallow embedding of `src/utils/uds/index.c` (uds index lifecycle and
zone request handling).  External collaborators — the volume layer, the
master index, the sparse cache and the index-state persistence — are
modelled as oracle environments whose answers are fields of explicit
`...Env` structures; the embedded functions additionally return the list
of calls they made into those collaborators, so that frame conditions
("no mutation happened") can be stated about the call trace.
-/

/-- 64-bit modulus: `uint64_t` arithmetic is performed modulo `2 ^ 64`. -/
def U64_MOD : Nat := 2 ^ 64

/-- Largest `uint64_t` value (`UINT64_MAX`), also used as the sparse-cache
    search-all sentinel in `search_index_zone`. -/
def UINT64_MAX : Nat := 2 ^ 64 - 1

/-- Largest `unsigned int` value (`UINT_MAX`): `unsigned int` is 32 bits
    wide on every data model this code is built for (ILP32 and LP64). -/
def UINT_MAX : Nat := 2 ^ 32 - 1

/-- `uint64_t` subtraction (wrapping). -/
def sub64 (a b : Nat) : Nat := (a + U64_MOD - b) % U64_MOD

/-- index.c line 29: `static const uint64_t NO_LAST_CHECKPOINT = UINT_MAX;` -/
def NO_LAST_CHECKPOINT : Nat := UINT_MAX

/-- The result codes of the operations this file uses, plus a catch-all
    for any other numbered error. -/
inductive UdsResult where
  | UDS_SUCCESS
  | UDS_OVERFLOW
  | UDS_DUPLICATE_NAME
  | UDS_CORRUPT_COMPONENT
  | UDS_INDEX_NOT_SAVED_CLEANLY
  | UDS_SHUTTINGDOWN
  | UDS_NO_INDEX
  | ENOMEM
  | UDS_CORRUPT_DATA
  | UDS_INVALID_ARGUMENT
  | UDS_ASSERTION_FAILED
  | otherError (code : Nat)
deriving DecidableEq, Repr

open UdsResult

/-- `enum load_type` values used by index.c. -/
inductive LoadType where
  | LOAD_UNDEFINED
  | LOAD_CREATE
  | LOAD_LOAD
  | LOAD_REBUILD
  | LOAD_EMPTY
  | LOAD_REPLAY
deriving DecidableEq, Repr

open LoadType

/-- `IndexRegion` values stored into `request->location`. -/
inductive IndexRegion where
  | LOC_UNAVAILABLE
  | LOC_IN_OPEN_CHAPTER
  | LOC_IN_DENSE
  | LOC_IN_SPARSE
deriving DecidableEq, Repr

open IndexRegion

/-- Request actions dispatched by `dispatch_index_zone_request`; the
    catch-all constructor stands for any other value of the C enum, which
    the dispatcher rejects as invalid. -/
inductive RequestAction where
  | REQUEST_INDEX
  | REQUEST_UPDATE
  | REQUEST_QUERY
  | REQUEST_DELETE
  | otherAction (code : Nat)
deriving DecidableEq, Repr

open RequestAction

/-- The geometry fields this file consults (`index->volume->geometry`). -/
structure IndexGeometry where
  chapters_per_volume : Nat
  sparse_chapters_per_volume : Nat
deriving DecidableEq, Repr

/-- Modelled from the spec: `is_sparse` of the external geometry
    component — a geometry is sparse when it has a nonempty sparse region
    ("Sparse chapter — a chapter whose on-disk index was reduced to a
    subset"). -/
def is_sparse (g : IndexGeometry) : Bool :=
  g.sparse_chapters_per_volume > 0

/-- Modelled from the spec: `are_same_physical_chapter` of the external
    geometry component; "Physical chapter — VCN mod chapters_per_volume",
    so two virtual chapters share a physical chapter exactly when they are
    congruent modulo `chapters_per_volume`. -/
def are_same_physical_chapter (g : IndexGeometry) (a b : Nat) : Bool :=
  a % g.chapters_per_volume == b % g.chapters_per_volume

/-- The `struct index` fields that index.c reads and writes. -/
structure IndexState where
  geometry : IndexGeometry
  existed : Bool
  oldest_virtual_chapter : Nat
  newest_virtual_chapter : Nat
  last_checkpoint : Nat
  prev_checkpoint : Nat
  loaded_type : LoadType
  has_saved_open_chapter : Bool
deriving DecidableEq, Repr

/-- index.c `begin_save` (lines 767-779): rotate the checkpoint tracking
    fields.  The `checkpoint` flag only selects the log message. -/
def begin_save (index : IndexState) (checkpoint : Bool)
    (open_chapter_number : Nat) : IndexState :=
  { index with
    prev_checkpoint := index.last_checkpoint
    last_checkpoint :=
      if open_chapter_number = 0 then NO_LAST_CHECKPOINT
      else open_chapter_number - 1 }

/-- The replay starting checkpoint computed by `load_index` (index.c lines
    104-107): a `last_checkpoint` equal to the sentinel maps to chapter 0. -/
def last_checkpoint_chapter_of (index : IndexState) : Nat :=
  if index.last_checkpoint ≠ NO_LAST_CHECKPOINT then index.last_checkpoint
  else 0

/-- A sample index state used to instantiate hypotheses at concrete
    inputs. -/
def sampleIndex : IndexState :=
  { geometry := { chapters_per_volume := 8, sparse_chapters_per_volume := 0 }
    existed := true
    oldest_virtual_chapter := 0
    newest_virtual_chapter := 0
    last_checkpoint := 0
    prev_checkpoint := 0
    loaded_type := LOAD_UNDEFINED
    has_saved_open_chapter := false }

/-! ## Lifecycle: replay, rebuild, load, make -/

/-- Oracle answers of the volume layer used by the lifecycle paths:
    the `findVolumeChapterBoundaries` outputs and the result of the one
    `replay_volume` call the function may make. -/
structure VolumeEnv where
  boundaries_result : UdsResult
  lowest_vcn : Nat
  highest_vcn : Nat
  is_empty : Bool
  replay_volume_result : UdsResult
deriving DecidableEq, Repr

/-- Outcome of a lifecycle step: the result code, the updated index state,
    and (ghost) the `from_vcn` argument of the `replay_volume` call if one
    was made. -/
structure LifecycleOutcome where
  result : UdsResult
  index : IndexState
  replayed_from : Option Nat
deriving DecidableEq, Repr

/-- index.c `replay_index_from_checkpoint` (lines 41-87).  The
    `lookupMode` save/restore only affects the external volume and is not
    part of the modelled state. -/
def replay_index_from_checkpoint (env : VolumeEnv) (index : IndexState)
    (last_checkpoint_chapter : Nat) : LifecycleOutcome :=
  if env.boundaries_result ≠ UDS_SUCCESS then
    { result := env.boundaries_result, index := index, replayed_from := none }
  else if env.lowest_vcn > env.highest_vcn then
    { result := UDS_CORRUPT_COMPONENT, index := index, replayed_from := none }
  else if env.is_empty then
    -- The volume is empty, so the index should also be empty
    if index.newest_virtual_chapter ≠ 0 then
      { result := UDS_CORRUPT_COMPONENT, index := index
        replayed_from := none }
    else
      { result := UDS_SUCCESS, index := index, replayed_from := none }
  else
    let chapters_per_volume := index.geometry.chapters_per_volume
    let index1 :=
      { index with
        oldest_virtual_chapter := env.lowest_vcn
        newest_virtual_chapter := (env.highest_vcn + 1) % U64_MOD }
    let index2 :=
      if index1.newest_virtual_chapter =
          (env.lowest_vcn + chapters_per_volume) % U64_MOD then
        -- skip the chapter shadowed by the open chapter
        { index1 with
          oldest_virtual_chapter :=
            (index1.oldest_virtual_chapter + 1) % U64_MOD }
      else index1
    let first_replay_chapter :=
      if last_checkpoint_chapter < index2.oldest_virtual_chapter then
        index2.oldest_virtual_chapter
      else last_checkpoint_chapter
    { result := env.replay_volume_result, index := index2
      replayed_from := some first_replay_chapter }

/-- index.c `rebuild_index` (lines 131-189).  The
    `setMasterIndexOpenChapter` and `setActiveChapters` calls act on
    external collaborators only. -/
def rebuild_index (env : VolumeEnv) (index : IndexState) :
    LifecycleOutcome :=
  if env.boundaries_result ≠ UDS_SUCCESS then
    { result := env.boundaries_result, index := index, replayed_from := none }
  else if env.lowest_vcn > env.highest_vcn then
    { result := UDS_CORRUPT_COMPONENT, index := index, replayed_from := none }
  else
    let index1 :=
      if env.is_empty then
        { index with
          newest_virtual_chapter := 0
          oldest_virtual_chapter := 0 }
      else
        let num_chapters := index.geometry.chapters_per_volume
        let indexA :=
          { index with
            newest_virtual_chapter := (env.highest_vcn + 1) % U64_MOD
            oldest_virtual_chapter := env.lowest_vcn }
        if indexA.newest_virtual_chapter =
            (indexA.oldest_virtual_chapter + num_chapters) % U64_MOD then
          -- skip the chapter shadowed by the open chapter
          { indexA with
            oldest_virtual_chapter :=
              (indexA.oldest_virtual_chapter + 1) % U64_MOD }
        else indexA
    if index.geometry.chapters_per_volume <
        sub64 index1.newest_virtual_chapter index1.oldest_virtual_chapter then
      { result := UDS_CORRUPT_COMPONENT, index := index1
        replayed_from := none }
    else if env.is_empty then
      { result := UDS_SUCCESS
        index := { index1 with loaded_type := LOAD_EMPTY }
        replayed_from := none }
    else if env.replay_volume_result ≠ UDS_SUCCESS then
      { result := env.replay_volume_result, index := index1
        replayed_from := some index1.oldest_virtual_chapter }
    else
      { result := UDS_SUCCESS
        index := { index1 with loaded_type := LOAD_REBUILD }
        replayed_from := some index1.oldest_virtual_chapter }

/-- Oracle answers of the index-state persistence consumed by
    `load_index`, together with the volume oracle for the checkpoint
    replay. -/
structure LoadEnv where
  load_index_state_result : UdsResult
  replay_required : Bool
  vol : VolumeEnv
deriving DecidableEq, Repr

/-- index.c `load_index` (lines 90-128). -/
def load_index (env : LoadEnv) (index : IndexState) (allow_replay : Bool) :
    LifecycleOutcome :=
  if env.load_index_state_result ≠ UDS_SUCCESS then
    { result := env.load_index_state_result, index := index
      replayed_from := none }
  else if env.replay_required ∧ ¬allow_replay then
    { result := UDS_INDEX_NOT_SAVED_CLEANLY, index := index
      replayed_from := none }
  else
    let last_checkpoint_chapter := last_checkpoint_chapter_of index
    if env.replay_required then
      let r := replay_index_from_checkpoint env.vol index
        last_checkpoint_chapter
      if r.result ≠ UDS_SUCCESS then r
      else
        { r with index := { r.index with loaded_type := LOAD_REPLAY } }
    else
      { result := UDS_SUCCESS
        index := { index with loaded_type := LOAD_LOAD }
        replayed_from := none }

/-- Oracle answers for the allocation and wiring steps of `make_index`,
    before the load/rebuild decision. -/
structure MakeEnv where
  allocate_result : UdsResult
  make_master_index_result : UdsResult
  add_state_master_result : UdsResult
  add_state_page_map_result : UdsResult
  make_chapter_writer_result : UdsResult
  load : LoadEnv
  rebuildVol : VolumeEnv
deriving DecidableEq, Repr

/-- Outcome of `make_index`: result code, the index published through
    `*new_index` on success, and (ghost) the `allow_replay` argument of
    the `load_index` call, if one was made, and whether `rebuild_index`
    was invoked. -/
structure MakeOutcome where
  result : UdsResult
  new_index : Option IndexState
  load_allow_replay : Option Bool
  rebuild_attempted : Bool
deriving DecidableEq, Repr

/-- index.c `make_index` (lines 192-290).  `index0` stands for the index
    produced by `allocate_index`; the load-context notification touches
    only the external context. -/
def make_index (env : MakeEnv) (index0 : IndexState)
    (load_type : LoadType) : MakeOutcome :=
  if env.allocate_result ≠ UDS_SUCCESS then
    { result := env.allocate_result, new_index := none
      load_allow_replay := none, rebuild_attempted := false }
  else if env.make_master_index_result ≠ UDS_SUCCESS then
    { result := env.make_master_index_result, new_index := none
      load_allow_replay := none, rebuild_attempted := false }
  else if env.add_state_master_result ≠ UDS_SUCCESS then
    { result := env.add_state_master_result, new_index := none
      load_allow_replay := none, rebuild_attempted := false }
  else if env.add_state_page_map_result ≠ UDS_SUCCESS then
    { result := env.add_state_page_map_result, new_index := none
      load_allow_replay := none, rebuild_attempted := false }
  else if env.make_chapter_writer_result ≠ UDS_SUCCESS then
    { result := env.make_chapter_writer_result, new_index := none
      load_allow_replay := none, rebuild_attempted := false }
  else if load_type = LOAD_LOAD ∨ load_type = LOAD_REBUILD then
    if ¬index0.existed then
      { result := UDS_NO_INDEX, new_index := none
        load_allow_replay := none, rebuild_attempted := false }
    else
      let allow_replay := decide (load_type = LOAD_REBUILD)
      let lo := load_index env.load index0 allow_replay
      match lo.result with
      | UDS_SUCCESS =>
        { result := UDS_SUCCESS
          new_index := some
            { lo.index with
              has_saved_open_chapter := decide (lo.index.loaded_type = LOAD_LOAD) }
          load_allow_replay := some allow_replay
          rebuild_attempted := false }
      | ENOMEM =>
        -- We should not try a rebuild for this error.
        { result := ENOMEM, new_index := none
          load_allow_replay := some allow_replay
          rebuild_attempted := false }
      | r =>
        if load_type = LOAD_REBUILD then
          let ro := rebuild_index env.rebuildVol lo.index
          if ro.result ≠ UDS_SUCCESS then
            { result := ro.result, new_index := none
              load_allow_replay := some allow_replay
              rebuild_attempted := true }
          else
            { result := UDS_SUCCESS
              new_index := some
                { ro.index with
                  has_saved_open_chapter :=
                    decide (ro.index.loaded_type = LOAD_LOAD) }
              load_allow_replay := some allow_replay
              rebuild_attempted := true }
        else
          { result := r, new_index := none
            load_allow_replay := some allow_replay
            rebuild_attempted := false }
  else
    { result := UDS_SUCCESS
      new_index := some
        { index0 with
          loaded_type := LOAD_CREATE
          has_saved_open_chapter := false }
      load_allow_replay := none, rebuild_attempted := false }

/-- index.c `advance_active_chapters` (lines 955-963). -/
def advance_active_chapters (index : IndexState) : IndexState :=
  let index1 :=
    { index with
      newest_virtual_chapter :=
        (index.newest_virtual_chapter + 1) % U64_MOD }
  if are_same_physical_chapter index1.geometry
      index1.newest_virtual_chapter index1.oldest_virtual_chapter then
    { index1 with
      oldest_virtual_chapter :=
        (index1.oldest_virtual_chapter + 1) % U64_MOD }
  else index1

/-! ## Zone requests: replay_record, search, remove, dispatch -/

/-- The relevant outputs of `getMasterIndexRecord`. -/
structure MIRecord where
  isFound : Bool
  isCollision : Bool
  virtualChapter : Nat
deriving DecidableEq, Repr

/-- Calls made into the master index, the volume and the open chapter.
    `getRecord`/`getRecordFromZone`/`searchCache`/`searchSparse` are
    reads; the remaining constructors are mutations. -/
inductive ZoneAction where
  | getRecord
  | getRecordFromZone (chapter : Nat)
  | searchCache (chapter : Nat)
  | searchSparse (chapter : Nat)
  | setChapter (chapter : Nat)
  | putRecord (chapter : Nat)
  | putRecordInZone (useNewMetadata : Bool)
  | removeRecord
  | removeFromOpenChapter
deriving DecidableEq, Repr

/-- Classifies the call-trace entries that mutate index state (master
    index writes, open-chapter insertions and removals). -/
def ZoneAction.isMutation : ZoneAction → Bool
  | ZoneAction.setChapter _ => true
  | ZoneAction.putRecord _ => true
  | ZoneAction.putRecordInZone _ => true
  | ZoneAction.removeRecord => true
  | ZoneAction.removeFromOpenChapter => true
  | _ => false

/-- Oracle answers for one `replay_record` call. -/
structure ReplayRecordEnv where
  is_sample : Bool
  get_record_result : UdsResult
  record : MIRecord
  search_cache_result : UdsResult
  search_cache_found : Bool
  set_chapter_result : UdsResult
  put_result : UdsResult
deriving DecidableEq, Repr

/-- index.c `replay_record` (lines 679-764), returning the result code
    and the trace of master-index / volume calls. -/
def replay_record (env : ReplayRecordEnv) (virtual_chapter : Nat)
    (will_be_sparse_chapter : Bool) : UdsResult × List ZoneAction :=
  if will_be_sparse_chapter ∧ ¬env.is_sample then
    -- will be in a sparse chapter after the rebuild; not a sample: skip
    (UDS_SUCCESS, [])
  else if env.get_record_result ≠ UDS_SUCCESS then
    (env.get_record_result, [ZoneAction.getRecord])
  else
    let record := env.record
    -- `none` encodes the early return for a correct collision record
    let decision : Option (Bool × List ZoneAction) :=
      if record.isFound then
        if record.isCollision then
          if record.virtualChapter = virtual_chapter then none
          else some (true, [])
        else if record.virtualChapter = virtual_chapter then
          some (false, [])
        else
          some (env.search_cache_found,
            [ZoneAction.searchCache record.virtualChapter])
      else
        some (false, [])
    match decision with
    | none => (UDS_SUCCESS, [ZoneAction.getRecord])
    | some (update_record, searchActs) =>
      if record.isFound ∧ ¬record.isCollision ∧
          record.virtualChapter ≠ virtual_chapter ∧
          env.search_cache_result ≠ UDS_SUCCESS then
        (env.search_cache_result, ZoneAction.getRecord :: searchActs)
      else
        let (result, act) :=
          if update_record then
            (env.set_chapter_result, ZoneAction.setChapter virtual_chapter)
          else
            (env.put_result, ZoneAction.putRecord virtual_chapter)
        let acts := ZoneAction.getRecord :: searchActs ++ [act]
        if result = UDS_DUPLICATE_NAME ∨ result = UDS_OVERFLOW then
          -- ignore duplicate record and delta list overflow errors
          (UDS_SUCCESS, acts)
        else
          (result, acts)

/-- The `Request` fields consulted by the zone layer. -/
structure Request where
  action : RequestAction
  update : Bool
  requeued : Bool
  location : IndexRegion
deriving DecidableEq, Repr

/-- Oracle answers for one `search_index_zone` call. -/
structure SearchEnv where
  get_record_result : UdsResult
  record : MIRecord
  get_from_zone_result : UdsResult
  zone_found : Bool
  region : IndexRegion
  is_sample : Bool
  sparse_search_result : UdsResult
  sparse_found : Bool
  set_chapter_result : UdsResult
  put_result : UdsResult
  put_in_zone_result : UdsResult
deriving DecidableEq, Repr

/-- The common tail of `search_index_zone` (index.c lines 438-460):
    overflow is swallowed, other errors propagate, and otherwise the
    record is put in the open chapter with new or old metadata. -/
def search_zone_finish (env : SearchEnv) (found : Bool) (request : Request)
    (result : UdsResult) (acts : List ZoneAction) :
    UdsResult × Request × List ZoneAction :=
  if result = UDS_OVERFLOW then
    -- delta list overflow: go on without adding the chunk
    (UDS_SUCCESS, request, acts)
  else if result ≠ UDS_SUCCESS then
    (result, request, acts)
  else
    let useNewMetadata := ¬found ∨ request.action = REQUEST_UPDATE
    (env.put_in_zone_result, request,
      acts ++ [ZoneAction.putRecordInZone useNewMetadata])

/-- index.c `search_index_zone` (lines 351-461), returning the result
    code, the request (whose `location` may have been set) and the call
    trace. -/
def search_index_zone (env : SearchEnv) (geometry : IndexGeometry)
    (newestVirtualChapter : Nat)
    (request : Request) : UdsResult × Request × List ZoneAction :=
  if env.get_record_result ≠ UDS_SUCCESS then
    (env.get_record_result, request, [ZoneAction.getRecord])
  else
    let record := env.record
    if record.isFound ∧ env.get_from_zone_result ≠ UDS_SUCCESS then
      (env.get_from_zone_result, request,
        [ZoneAction.getRecord,
         ZoneAction.getRecordFromZone record.virtualChapter])
    else
      let found := record.isFound ∧ env.zone_found
      let acts0 :=
        if record.isFound then
          [ZoneAction.getRecord,
           ZoneAction.getRecordFromZone record.virtualChapter]
        else [ZoneAction.getRecord]
      let request1 :=
        if found then { request with location := env.region } else request
      let overflow_record := record.isFound ∧ record.isCollision ∧ ¬found
      let chapter := newestVirtualChapter
      if found ∨ overflow_record then
        if request1.action = REQUEST_QUERY ∧
            (¬request1.update ∨ overflow_record) then
          -- query without update, or with nothing to update
          (UDS_SUCCESS, request1, acts0)
        else if record.virtualChapter ≠ chapter then
          search_zone_finish env found request1 env.set_chapter_result
            (acts0 ++ [ZoneAction.setChapter chapter])
        else if request1.action ≠ REQUEST_UPDATE then
          -- already in the open chapter
          (UDS_SUCCESS, request1, acts0)
        else
          search_zone_finish env found request1 UDS_SUCCESS acts0
      else
        -- the record was not in the master index: check the sparse cache
        let do_sparse := ¬env.is_sample ∧ is_sparse geometry
        if do_sparse ∧ env.sparse_search_result ≠ UDS_SUCCESS then
          (env.sparse_search_result, request1,
            acts0 ++ [ZoneAction.searchSparse UINT64_MAX])
        else
          let found2 := do_sparse ∧ env.sparse_found
          let acts1 := acts0 ++
            (if do_sparse then [ZoneAction.searchSparse UINT64_MAX] else [])
          let request2 :=
            if found2 then { request1 with location := LOC_IN_SPARSE }
            else request1
          if request2.action = REQUEST_QUERY ∧
              (¬found2 ∨ ¬request2.update) then
            -- query without update or for a new record
            (UDS_SUCCESS, request2, acts1)
          else
            search_zone_finish env found2 request2 env.put_result
              (acts1 ++ [ZoneAction.putRecord chapter])

/-- Oracle answers for one `remove_from_index_zone` call. -/
structure RemoveEnv where
  get_record_result : UdsResult
  record : MIRecord
  get_from_zone_result : UdsResult
  zone_found : Bool
  region : IndexRegion
  remove_record_result : UdsResult
  open_chapter_hash_exists : Bool
deriving DecidableEq, Repr

/-- index.c `remove_from_index_zone` (lines 464-522).  The `ASSERT` on
    `hash_exists` surfaces as `UDS_ASSERTION_FAILED` when it fails. -/
def remove_from_index_zone (env : RemoveEnv) (request : Request) :
    UdsResult × Request × List ZoneAction :=
  if env.get_record_result ≠ UDS_SUCCESS then
    (env.get_record_result, request, [ZoneAction.getRecord])
  else if ¬env.record.isFound then
    -- the name does not exist in the master index: nothing to remove
    (UDS_SUCCESS, request, [ZoneAction.getRecord])
  else
    let resolveActs :=
      if ¬env.record.isCollision then
        [ZoneAction.getRecord,
         ZoneAction.getRecordFromZone env.record.virtualChapter]
      else [ZoneAction.getRecord]
    if ¬env.record.isCollision ∧ env.get_from_zone_result ≠ UDS_SUCCESS then
      (env.get_from_zone_result, request, resolveActs)
    else if ¬env.record.isCollision ∧ ¬env.zone_found then
      -- the name does not exist in the chapter: nothing to remove
      (UDS_SUCCESS, request, resolveActs)
    else
      let request1 := { request with location := env.region }
      let acts := resolveActs ++ [ZoneAction.removeRecord]
      if env.remove_record_result ≠ UDS_SUCCESS then
        (env.remove_record_result, request1, acts)
      else if request1.location = LOC_IN_OPEN_CHAPTER then
        let acts1 := acts ++ [ZoneAction.removeFromOpenChapter]
        if ¬env.open_chapter_hash_exists then
          -- ASSERT(hash_exists, "removing record not found in open chapter")
          (UDS_ASSERTION_FAILED, request1, acts1)
        else
          (UDS_SUCCESS, request1, acts1)
      else
        (UDS_SUCCESS, request1, acts)

/-- Oracle answers for one `dispatch_index_zone_request` call: the
    outcome of the synthesized sparse-cache barrier plus the environments
    of the two possible zone operations. -/
structure DispatchEnv where
  barrier_result : UdsResult
  search : SearchEnv
  remove : RemoveEnv
  geometry : IndexGeometry
  newestVirtualChapter : Nat
deriving DecidableEq, Repr

/-- index.c `dispatch_index_zone_request` (lines 569-608).
    `simulate_index_zone_barrier_message` is summarized by its result
    code, and `makeUnrecoverable` preserves the result code it wraps. -/
def dispatch_index_zone_request (env : DispatchEnv) (request : Request) :
    UdsResult × Request :=
  if ¬request.requeued ∧ env.barrier_result ≠ UDS_SUCCESS then
    (env.barrier_result, request)
  else
    -- set the default location; overwritten if we find the chunk
    let request1 := { request with location := LOC_UNAVAILABLE }
    match request1.action with
    | REQUEST_INDEX =>
      let (r, req, _) :=
        search_index_zone env.search env.geometry
          env.newestVirtualChapter request1
      (r, req)
    | REQUEST_UPDATE =>
      let (r, req, _) :=
        search_index_zone env.search env.geometry
          env.newestVirtualChapter request1
      (r, req)
    | REQUEST_QUERY =>
      let (r, req, _) :=
        search_index_zone env.search env.geometry
          env.newestVirtualChapter request1
      (r, req)
    | REQUEST_DELETE =>
      let (r, req, _) := remove_from_index_zone env.remove request1
      (r, req)
    | otherAction _ => (UDS_INVALID_ARGUMENT, request1)

/-! ## Claims -/

/-- Claim C1, counterexample: the `NO_LAST_CHECKPOINT` sentinel does not
    equal `MAX_U64 = 2 ^ 64 - 1` — index.c initializes it from `UINT_MAX`
    — so `begin_save` with `open_chapter_number = 0` does not store
    `2 ^ 64 - 1` into `last_checkpoint`. -/
theorem begin_save_sentinel_not_max_u64 :
    NO_LAST_CHECKPOINT ≠ 2 ^ 64 - 1 ∧
    (begin_save sampleIndex false 0).last_checkpoint ≠ 2 ^ 64 - 1 := by
  constructor
  · decide
  · show (if (0 : Nat) = 0 then NO_LAST_CHECKPOINT else 0 - 1) ≠ 2 ^ 64 - 1
    decide

/-- Claim C1, amended: the `NO_LAST_CHECKPOINT` sentinel equals
    `UINT_MAX = 2 ^ 32 - 1`; `begin_save` with `open_chapter_number = 0`
    stores this sentinel in `last_checkpoint`, and the checkpoint chapter
    `load_index` computes maps a `last_checkpoint` equal to the sentinel
    to a replay starting chapter of 0. -/
theorem begin_save_zero_sentinel_maps_to_zero :
    NO_LAST_CHECKPOINT = 2 ^ 32 - 1 ∧
    ∀ (index : IndexState) (cp : Bool),
      (begin_save index cp 0).last_checkpoint = NO_LAST_CHECKPOINT ∧
      last_checkpoint_chapter_of (begin_save index cp 0) = 0 := by
  refine ⟨by decide, fun index cp => ?_⟩
  refine ⟨by simp [begin_save], ?_⟩
  simp [begin_save, last_checkpoint_chapter_of]

/-- Claim C2: when `load_index_state` reports that replay is required and
    the caller did not permit replay, `load_index` fails with
    `UDS_INDEX_NOT_SAVED_CLEANLY`; when replay is permitted and
    `replay_index_from_checkpoint` succeeds, the load completes with
    `loaded_type = LOAD_REPLAY`; and `make_index` permits replay exactly
    when `load_type = LOAD_REBUILD`. -/
theorem load_index_replay_policy :
    (∀ (env : LoadEnv) (index : IndexState),
      env.load_index_state_result = UDS_SUCCESS →
      env.replay_required = true →
      (load_index env index false).result = UDS_INDEX_NOT_SAVED_CLEANLY) ∧
    (∀ (env : LoadEnv) (index : IndexState),
      env.load_index_state_result = UDS_SUCCESS →
      env.replay_required = true →
      (replay_index_from_checkpoint env.vol index
          (last_checkpoint_chapter_of index)).result = UDS_SUCCESS →
      (load_index env index true).result = UDS_SUCCESS ∧
      (load_index env index true).index.loaded_type = LOAD_REPLAY) ∧
    (∀ (env : MakeEnv) (index0 : IndexState) (load_type : LoadType),
      env.allocate_result = UDS_SUCCESS →
      env.make_master_index_result = UDS_SUCCESS →
      env.add_state_master_result = UDS_SUCCESS →
      env.add_state_page_map_result = UDS_SUCCESS →
      env.make_chapter_writer_result = UDS_SUCCESS →
      index0.existed = true →
      load_type = LOAD_LOAD ∨ load_type = LOAD_REBUILD →
      (make_index env index0 load_type).load_allow_replay =
        some (decide (load_type = LOAD_REBUILD))) := by
  refine ⟨?_, ?_, ?_⟩
  · intro env index h1 h2
    simp [load_index, h1, h2]
  · intro env index h1 h2 h3
    simp only [load_index, h1, h2]
    simp [h3]
  · intro env index0 load_type h1 h2 h3 h4 h5 h6 h7
    rcases h7 with rfl | rfl
    · simp only [make_index, h1, h2, h3, h4, h5, h6]
      simp
      rcases hres : (load_index env.load index0 false).result <;> simp [hres]
    · simp only [make_index, h1, h2, h3, h4, h5, h6]
      simp
      rcases hres : (load_index env.load index0 true).result <;>
        simp [hres] <;> split <;> rfl

/-- A sample volume oracle: a healthy non-empty volume holding chapters
    2 through 5 of a ring of 8. -/
def sampleVol : VolumeEnv :=
  { boundaries_result := UDS_SUCCESS
    lowest_vcn := 2
    highest_vcn := 5
    is_empty := false
    replay_volume_result := UDS_SUCCESS }

/-- A sample load oracle: persisted state read back cleanly but replay
    required. -/
def sampleLoad : LoadEnv :=
  { load_index_state_result := UDS_SUCCESS
    replay_required := true
    vol := sampleVol }

/-- A sample make-index oracle where every setup step succeeds. -/
def sampleMake : MakeEnv :=
  { allocate_result := UDS_SUCCESS
    make_master_index_result := UDS_SUCCESS
    add_state_master_result := UDS_SUCCESS
    add_state_page_map_result := UDS_SUCCESS
    make_chapter_writer_result := UDS_SUCCESS
    load := sampleLoad
    rebuildVol := sampleVol }

/-- Claim C2 witness at concrete inputs. -/
theorem load_index_replay_policy_witness :
    (load_index sampleLoad sampleIndex false).result =
      UDS_INDEX_NOT_SAVED_CLEANLY ∧
    ((load_index sampleLoad sampleIndex true).result = UDS_SUCCESS ∧
      (load_index sampleLoad sampleIndex true).index.loaded_type =
        LOAD_REPLAY) ∧
    (make_index sampleMake sampleIndex LOAD_REBUILD).load_allow_replay =
      some (decide (LOAD_REBUILD = LOAD_REBUILD)) :=
  ⟨load_index_replay_policy.1 sampleLoad sampleIndex rfl rfl,
   load_index_replay_policy.2.1 sampleLoad sampleIndex rfl rfl (by decide),
   load_index_replay_policy.2.2 sampleMake sampleIndex LOAD_REBUILD
     rfl rfl rfl rfl rfl rfl (Or.inr rfl)⟩

/-- Claim C3: with `load_type = LOAD_REBUILD`, a `load_index` failure
    with `ENOMEM` makes `make_index` return the error without attempting
    `rebuild_index`; `rebuild_index` is attempted exactly for the other
    non-success results of `load_index`, and the final result is then the
    rebuild's result. -/
theorem make_index_enomem_no_rebuild :
    ∀ (env : MakeEnv) (index0 : IndexState),
      env.allocate_result = UDS_SUCCESS →
      env.make_master_index_result = UDS_SUCCESS →
      env.add_state_master_result = UDS_SUCCESS →
      env.add_state_page_map_result = UDS_SUCCESS →
      env.make_chapter_writer_result = UDS_SUCCESS →
      index0.existed = true →
      ((load_index env.load index0 true).result = ENOMEM →
        (make_index env index0 LOAD_REBUILD).result = ENOMEM ∧
        (make_index env index0 LOAD_REBUILD).rebuild_attempted = false) ∧
      ((load_index env.load index0 true).result = UDS_SUCCESS →
        (make_index env index0 LOAD_REBUILD).rebuild_attempted = false) ∧
      ((load_index env.load index0 true).result ≠ UDS_SUCCESS →
        (load_index env.load index0 true).result ≠ ENOMEM →
        (make_index env index0 LOAD_REBUILD).rebuild_attempted = true ∧
        (make_index env index0 LOAD_REBUILD).result =
          (rebuild_index env.rebuildVol
            (load_index env.load index0 true).index).result) := by
  intro env index0 h1 h2 h3 h4 h5 h6
  simp only [make_index, h1, h2, h3, h4, h5, h6]
  rcases hres : (load_index env.load index0 true).result <;>
    simp [hres] <;> split <;> simp_all

/-- A make-index oracle whose load step fails with `ENOMEM` (the index
    state component allocation failed). -/
def sampleMakeOOM : MakeEnv :=
  { sampleMake with
    load := { load_index_state_result := ENOMEM
              replay_required := false
              vol := sampleVol } }

/-- A make-index oracle whose load step fails with a non-`ENOMEM` error. -/
def sampleMakeBad : MakeEnv :=
  { sampleMake with
    load := { load_index_state_result := UDS_CORRUPT_DATA
              replay_required := false
              vol := sampleVol } }

/-- Claim C3 witness at concrete inputs. -/
theorem make_index_enomem_no_rebuild_witness :
    ((make_index sampleMakeOOM sampleIndex LOAD_REBUILD).result = ENOMEM ∧
      (make_index sampleMakeOOM sampleIndex LOAD_REBUILD).rebuild_attempted
        = false) ∧
    (make_index sampleMakeBad sampleIndex LOAD_REBUILD).rebuild_attempted
      = true :=
  ⟨(make_index_enomem_no_rebuild sampleMakeOOM sampleIndex
      rfl rfl rfl rfl rfl rfl).1 (by decide),
   ((make_index_enomem_no_rebuild sampleMakeBad sampleIndex
      rfl rfl rfl rfl rfl rfl).2.2 (by decide) (by decide)).1⟩

theorem U64_MOD_eq : U64_MOD = 18446744073709551616 := by
  norm_num [U64_MOD]

theorem sub64_eq {a b : Nat} (h1 : b ≤ a) (h2 : a < U64_MOD) :
    sub64 a b = a - b := by
  rw [sub64, U64_MOD_eq] at *
  omega

/-- The active-chapter window invariant maintained by the lifecycle: the
    oldest active chapter never passes the newest, and the window is
    strictly smaller than the ring (the open chapter always shadows one
    physical chapter), which implies the spec's bound
    `newest - oldest ≤ chapters_per_volume`. -/
def chapterWindowInv (s : IndexState) : Prop :=
  s.oldest_virtual_chapter ≤ s.newest_virtual_chapter ∧
  s.newest_virtual_chapter - s.oldest_virtual_chapter <
    s.geometry.chapters_per_volume

instance (s : IndexState) : Decidable (chapterWindowInv s) := by
  unfold chapterWindowInv
  infer_instance

/-- Claim C4: the boundary setup of `replay_index_from_checkpoint` and of
    `rebuild_index` establishes the window invariant (incrementing the
    oldest chapter when the ring is full), `advance_active_chapters`
    preserves it (advancing the oldest chapter in lockstep whenever the
    new newest chapter shares its physical chapter), and the invariant
    yields `oldest ≤ newest` and `newest - oldest ≤ chapters_per_volume`. -/
theorem active_chapter_window_invariant :
    (∀ (env : VolumeEnv) (index : IndexState) (lcc : Nat),
      env.boundaries_result = UDS_SUCCESS →
      env.is_empty = false →
      env.lowest_vcn ≤ env.highest_vcn →
      env.highest_vcn + 1 ≤
        env.lowest_vcn + index.geometry.chapters_per_volume →
      env.lowest_vcn + index.geometry.chapters_per_volume < U64_MOD →
      chapterWindowInv (replay_index_from_checkpoint env index lcc).index) ∧
    (∀ (env : VolumeEnv) (index : IndexState),
      0 < index.geometry.chapters_per_volume →
      env.highest_vcn + 1 < U64_MOD →
      env.lowest_vcn + index.geometry.chapters_per_volume < U64_MOD →
      (rebuild_index env index).result = UDS_SUCCESS →
      chapterWindowInv (rebuild_index env index).index) ∧
    (∀ index : IndexState,
      chapterWindowInv index →
      index.newest_virtual_chapter + 1 < U64_MOD →
      chapterWindowInv (advance_active_chapters index)) ∧
    (∀ index : IndexState,
      chapterWindowInv index →
      index.oldest_virtual_chapter ≤ index.newest_virtual_chapter ∧
      index.newest_virtual_chapter - index.oldest_virtual_chapter ≤
        index.geometry.chapters_per_volume) := by
  refine ⟨?_, ?_, ?_, ?_⟩
  · intro env index lcc h1 h2 h3 h4 h5
    have hb : ¬(env.boundaries_result ≠ UDS_SUCCESS) := by simp [h1]
    have hlh : ¬(env.lowest_vcn > env.highest_vcn) := by omega
    have hcpos : 0 < index.geometry.chapters_per_volume := by omega
    have hm1 : (env.highest_vcn + 1) % U64_MOD = env.highest_vcn + 1 :=
      Nat.mod_eq_of_lt (by omega)
    have hm2 : (env.lowest_vcn + index.geometry.chapters_per_volume) %
        U64_MOD = env.lowest_vcn + index.geometry.chapters_per_volume :=
      Nat.mod_eq_of_lt h5
    have hm3 : (env.lowest_vcn + 1) % U64_MOD = env.lowest_vcn + 1 :=
      Nat.mod_eq_of_lt (by omega)
    rw [replay_index_from_checkpoint, if_neg hb, if_neg hlh,
      if_neg (by simp [h2])]
    simp only [hm1, hm2, hm3, chapterWindowInv]
    split
    · next h => dsimp only; omega
    · next h => dsimp only; omega
  · intro env index hc hm hm2 hres
    by_cases hb : env.boundaries_result = UDS_SUCCESS
    swap
    · rw [rebuild_index, if_pos (by simpa using hb)] at hres
      exact absurd hres hb
    by_cases hlh : env.lowest_vcn > env.highest_vcn
    · rw [rebuild_index, if_neg (by simp [hb]), if_pos hlh] at hres
      simp at hres
    have hm1 : (env.highest_vcn + 1) % U64_MOD = env.highest_vcn + 1 :=
      Nat.mod_eq_of_lt hm
    have hm3 : (env.lowest_vcn + 1) % U64_MOD = env.lowest_vcn + 1 :=
      Nat.mod_eq_of_lt (by omega)
    have hm4 : (env.lowest_vcn + index.geometry.chapters_per_volume) %
        U64_MOD = env.lowest_vcn + index.geometry.chapters_per_volume :=
      Nat.mod_eq_of_lt hm2
    by_cases hemp : env.is_empty = true
    · simp [rebuild_index, hb, hlh, hemp, sub64, chapterWindowInv]
        at hres ⊢
      omega
    · by_cases hsk : env.highest_vcn + 1 =
          env.lowest_vcn + index.geometry.chapters_per_volume
      · simp only [rebuild_index, if_neg (by simp [hb] :
          ¬(env.boundaries_result ≠ UDS_SUCCESS)), if_neg hlh, hemp,
          Bool.false_eq_true, if_false, hm1, hm3, hm4, if_pos hsk]
          at hres ⊢
        rw [sub64_eq (by omega) (by omega), if_neg (by omega)] at hres ⊢
        by_cases hrv : env.replay_volume_result = UDS_SUCCESS
        · rw [if_neg (by simp [hrv])] at hres ⊢
          simp only [chapterWindowInv]
          omega
        · rw [if_pos (by simp [hrv])] at hres
          exact absurd hres hrv
      · simp only [rebuild_index, if_neg (by simp [hb] :
          ¬(env.boundaries_result ≠ UDS_SUCCESS)), if_neg hlh, hemp,
          Bool.false_eq_true, if_false, hm1, hm3, hm4, if_neg hsk]
          at hres ⊢
        rw [sub64_eq (by omega) (by omega)] at hres ⊢
        by_cases hchk : index.geometry.chapters_per_volume <
            env.highest_vcn + 1 - env.lowest_vcn
        · rw [if_pos hchk] at hres
          simp at hres
        · rw [if_neg hchk] at hres ⊢
          by_cases hrv : env.replay_volume_result = UDS_SUCCESS
          · rw [if_neg (by simp [hrv])] at hres ⊢
            simp only [chapterWindowInv]
            omega
          · rw [if_pos (by simp [hrv])] at hres
            exact absurd hres hrv
  · intro index hinv hlt
    obtain ⟨hle, hdiff⟩ := hinv
    have hm : (index.newest_virtual_chapter + 1) % U64_MOD =
        index.newest_virtual_chapter + 1 := Nat.mod_eq_of_lt hlt
    have hm2 : (index.oldest_virtual_chapter + 1) % U64_MOD =
        index.oldest_virtual_chapter + 1 := Nat.mod_eq_of_lt (by omega)
    rw [advance_active_chapters]
    simp only [are_same_physical_chapter, hm, hm2]
    split
    · next h =>
      rw [beq_iff_eq] at h
      have hdvd : index.geometry.chapters_per_volume ∣
          (index.newest_virtual_chapter + 1 -
            index.oldest_virtual_chapter) :=
        (Nat.modEq_iff_dvd' (by omega)).mp h.symm
      have hge := Nat.le_of_dvd (by omega) hdvd
      simp only [chapterWindowInv]
      constructor <;> omega
    · next h =>
      rw [beq_iff_eq] at h
      simp only [chapterWindowInv]
      refine ⟨by omega, ?_⟩
      by_contra hcon
      apply h
      have : index.newest_virtual_chapter + 1 =
          index.oldest_virtual_chapter +
            index.geometry.chapters_per_volume := by omega
      rw [this, Nat.add_mod_right]
  · intro index hinv
    obtain ⟨h1, h2⟩ := hinv
    exact ⟨h1, by omega⟩

/-- Claim C4 witness at concrete inputs. -/
theorem active_chapter_window_invariant_witness :
    chapterWindowInv
      (replay_index_from_checkpoint sampleVol sampleIndex 0).index ∧
    chapterWindowInv (rebuild_index sampleVol sampleIndex).index ∧
    chapterWindowInv (advance_active_chapters sampleIndex) ∧
    (sampleIndex.oldest_virtual_chapter ≤
        sampleIndex.newest_virtual_chapter ∧
      sampleIndex.newest_virtual_chapter -
          sampleIndex.oldest_virtual_chapter ≤
        sampleIndex.geometry.chapters_per_volume) :=
  ⟨active_chapter_window_invariant.1 sampleVol sampleIndex 0 rfl rfl
      (by decide) (by decide) (by decide),
   active_chapter_window_invariant.2.1 sampleVol sampleIndex
      (by decide) (by decide) (by decide) (by decide),
   active_chapter_window_invariant.2.2.1 sampleIndex (by decide)
      (by decide),
   active_chapter_window_invariant.2.2.2 sampleIndex (by decide)⟩

/-- Claim C5: on a non-empty volume `replay_index_from_checkpoint` sets
    `newest_virtual_chapter = highest_vcn + 1` and
    `oldest_virtual_chapter = lowest_vcn` (incremented by one when the
    ring is full), then replays from
    `max last_checkpoint_chapter oldest_virtual_chapter`; on an empty
    volume with a nonzero in-memory `newest_virtual_chapter` it fails
    with `UDS_CORRUPT_COMPONENT`. -/
theorem replay_from_checkpoint_boundaries :
    (∀ (env : VolumeEnv) (index : IndexState) (lcc : Nat),
      env.boundaries_result = UDS_SUCCESS →
      env.is_empty = false →
      env.lowest_vcn ≤ env.highest_vcn →
      env.highest_vcn + 1 < U64_MOD →
      env.lowest_vcn + index.geometry.chapters_per_volume < U64_MOD →
      (replay_index_from_checkpoint env index lcc).index.newest_virtual_chapter
        = env.highest_vcn + 1 ∧
      (replay_index_from_checkpoint env index lcc).index.oldest_virtual_chapter
        = (if env.highest_vcn + 1 =
              env.lowest_vcn + index.geometry.chapters_per_volume
           then env.lowest_vcn + 1 else env.lowest_vcn) ∧
      (replay_index_from_checkpoint env index lcc).replayed_from
        = some (max lcc
            (replay_index_from_checkpoint env index
              lcc).index.oldest_virtual_chapter)) ∧
    (∀ (env : VolumeEnv) (index : IndexState) (lcc : Nat),
      env.boundaries_result = UDS_SUCCESS →
      env.is_empty = true →
      index.newest_virtual_chapter ≠ 0 →
      (replay_index_from_checkpoint env index lcc).result =
        UDS_CORRUPT_COMPONENT) := by
  constructor
  · intro env index lcc h1 h2 h3 h4 h5
    have hb : ¬(env.boundaries_result ≠ UDS_SUCCESS) := by simp [h1]
    have hlh : ¬(env.lowest_vcn > env.highest_vcn) := by omega
    have hm1 : (env.highest_vcn + 1) % U64_MOD = env.highest_vcn + 1 :=
      Nat.mod_eq_of_lt h4
    have hm2 : (env.lowest_vcn + index.geometry.chapters_per_volume) %
        U64_MOD = env.lowest_vcn + index.geometry.chapters_per_volume :=
      Nat.mod_eq_of_lt h5
    have hm3 : (env.lowest_vcn + 1) % U64_MOD = env.lowest_vcn + 1 :=
      Nat.mod_eq_of_lt (by omega)
    rw [replay_index_from_checkpoint, if_neg hb, if_neg hlh,
      if_neg (by simp [h2])]
    simp only [hm1, hm2, hm3]
    split
    · next h =>
      refine ⟨rfl, rfl, ?_⟩
      dsimp only
      congr 1
      rw [Nat.max_def]
      split <;> split <;> omega
    · next h =>
      refine ⟨rfl, rfl, ?_⟩
      dsimp only
      congr 1
      rw [Nat.max_def]
      split <;> split <;> omega
  · intro env index lcc h1 h2 h3
    simp [replay_index_from_checkpoint, h1, h2, h3]

/-- Claim C5 witness at concrete inputs. -/
theorem replay_from_checkpoint_boundaries_witness :
    ((replay_index_from_checkpoint sampleVol sampleIndex
        3).index.newest_virtual_chapter = 5 + 1 ∧
      (replay_index_from_checkpoint sampleVol sampleIndex
        3).index.oldest_virtual_chapter =
          (if 5 + 1 = 2 + sampleIndex.geometry.chapters_per_volume
           then 2 + 1 else 2) ∧
      (replay_index_from_checkpoint sampleVol sampleIndex 3).replayed_from
        = some (max 3
            (replay_index_from_checkpoint sampleVol sampleIndex
              3).index.oldest_virtual_chapter)) ∧
    (replay_index_from_checkpoint
        { sampleVol with is_empty := true }
        { sampleIndex with newest_virtual_chapter := 4 } 0).result =
      UDS_CORRUPT_COMPONENT :=
  ⟨replay_from_checkpoint_boundaries.1 sampleVol sampleIndex 3 rfl rfl
      (by decide) (by decide) (by decide),
   replay_from_checkpoint_boundaries.2
      { sampleVol with is_empty := true }
      { sampleIndex with newest_virtual_chapter := 4 } 0 rfl rfl
      (by decide)⟩

/-- Claim C6: during replay, `replay_record` returns success at once,
    touching nothing, for a record that will be in a sparse chapter and is
    not a sample; a found collision record already pointing at the
    replayed chapter is left alone; a found non-collision record pointing
    at the replayed chapter is re-`put` (inserting a parallel record)
    rather than updated; and `UDS_DUPLICATE_NAME` and `UDS_OVERFLOW` from
    the final put / set-chapter are converted to success while any other
    error propagates. -/
theorem replay_record_cases :
    (∀ (env : ReplayRecordEnv) (vc : Nat),
      env.is_sample = false →
      replay_record env vc true = (UDS_SUCCESS, [])) ∧
    (∀ (env : ReplayRecordEnv) (vc : Nat) (wbs : Bool),
      (wbs = true → env.is_sample = true) →
      env.get_record_result = UDS_SUCCESS →
      env.record.isFound = true →
      env.record.isCollision = true →
      env.record.virtualChapter = vc →
      replay_record env vc wbs = (UDS_SUCCESS, [ZoneAction.getRecord])) ∧
    (∀ (env : ReplayRecordEnv) (vc : Nat) (wbs : Bool),
      (wbs = true → env.is_sample = true) →
      env.get_record_result = UDS_SUCCESS →
      env.record.isFound = true →
      env.record.isCollision = false →
      env.record.virtualChapter = vc →
      replay_record env vc wbs =
        ((if env.put_result = UDS_DUPLICATE_NAME ∨
              env.put_result = UDS_OVERFLOW
          then UDS_SUCCESS else env.put_result),
          [ZoneAction.getRecord, ZoneAction.putRecord vc])) ∧
    (∀ (env : ReplayRecordEnv) (vc : Nat) (wbs : Bool),
      (wbs = true → env.is_sample = true) →
      env.get_record_result = UDS_SUCCESS →
      env.record.isFound = true →
      env.record.isCollision = true →
      env.record.virtualChapter ≠ vc →
      replay_record env vc wbs =
        ((if env.set_chapter_result = UDS_DUPLICATE_NAME ∨
              env.set_chapter_result = UDS_OVERFLOW
          then UDS_SUCCESS else env.set_chapter_result),
          [ZoneAction.getRecord, ZoneAction.setChapter vc])) ∧
    (∀ (env : ReplayRecordEnv) (vc : Nat) (wbs : Bool),
      (wbs = true → env.is_sample = true) →
      env.get_record_result = UDS_SUCCESS →
      env.record.isFound = false →
      replay_record env vc wbs =
        ((if env.put_result = UDS_DUPLICATE_NAME ∨
              env.put_result = UDS_OVERFLOW
          then UDS_SUCCESS else env.put_result),
          [ZoneAction.getRecord, ZoneAction.putRecord vc])) := by
  have hguard : ∀ (env : ReplayRecordEnv) (wbs : Bool),
      (wbs = true → env.is_sample = true) →
      ¬((wbs = true) ∧ ¬(env.is_sample = true)) := by
    intro env wbs hs
    rcases wbs with _ | _
    · simp
    · simp [hs rfl]
  refine ⟨?_, ?_, ?_, ?_, ?_⟩
  · intro env vc hs
    rw [replay_record, if_pos ⟨rfl, by simp [hs]⟩]
  · intro env vc wbs hs h1 h2 h3 h4
    rw [replay_record, if_neg (hguard env wbs hs), if_neg (by simp [h1])]
    simp [h2, h3, h4]
  · intro env vc wbs hs h1 h2 h3 h4
    rw [replay_record, if_neg (hguard env wbs hs), if_neg (by simp [h1])]
    simp only [h2, h3, h4]
    simp
    split <;> simp_all
  · intro env vc wbs hs h1 h2 h3 h4
    rw [replay_record, if_neg (hguard env wbs hs), if_neg (by simp [h1])]
    simp only [h2, h3]
    simp [h4]
    split <;> simp_all
  · intro env vc wbs hs h1 h2
    rw [replay_record, if_neg (hguard env wbs hs), if_neg (by simp [h1])]
    simp [h2]
    split <;> simp_all

/-- A sample `replay_record` oracle: a found non-collision record already
    pointing at the replayed chapter. -/
def sampleReplayRecEnv : ReplayRecordEnv :=
  { is_sample := true
    get_record_result := UDS_SUCCESS
    record := { isFound := true, isCollision := false, virtualChapter := 7 }
    search_cache_result := UDS_SUCCESS
    search_cache_found := false
    set_chapter_result := UDS_SUCCESS
    put_result := UDS_DUPLICATE_NAME }

/-- Claim C6 witness at concrete inputs. -/
theorem replay_record_cases_witness :
    replay_record { sampleReplayRecEnv with is_sample := false } 3 true =
      (UDS_SUCCESS, []) ∧
    replay_record sampleReplayRecEnv 7 false =
      ((if sampleReplayRecEnv.put_result = UDS_DUPLICATE_NAME ∨
            sampleReplayRecEnv.put_result = UDS_OVERFLOW
        then UDS_SUCCESS else sampleReplayRecEnv.put_result),
        [ZoneAction.getRecord, ZoneAction.putRecord 7]) :=
  ⟨replay_record_cases.1 { sampleReplayRecEnv with is_sample := false } 3
      rfl,
   replay_record_cases.2.2.1 sampleReplayRecEnv 7 false (by decide)
      rfl rfl rfl rfl⟩

/-- Claim C7: in `search_index_zone`, when the lookup finds the record
    (or an overflow / collision record) and the request is a `QUERY`
    whose update flag is false — or an overflow record, which has nothing
    to update — the function returns success with no mutation: no
    set-chapter, no put, and no insertion into the open chapter. -/
theorem search_query_no_mutation :
    ∀ (env : SearchEnv) (g : IndexGeometry) (nvc : Nat) (req : Request),
      env.get_record_result = UDS_SUCCESS →
      env.get_from_zone_result = UDS_SUCCESS →
      env.record.isFound = true →
      (env.zone_found = true ∨ env.record.isCollision = true) →
      req.action = REQUEST_QUERY →
      (env.zone_found = true → req.update = false) →
      (search_index_zone env g nvc req).1 = UDS_SUCCESS ∧
      ∀ a ∈ (search_index_zone env g nvc req).2.2,
        a.isMutation = false := by
  intro env g nvc req h1 h2 h3 h4 h5 h6
  have heq : (search_index_zone env g nvc req).1 = UDS_SUCCESS ∧
      (search_index_zone env g nvc req).2.2 =
        [ZoneAction.getRecord,
         ZoneAction.getRecordFromZone env.record.virtualChapter] := by
    rcases hz : env.zone_found with _ | _
    · have hcol : env.record.isCollision = true := by
        rcases h4 with h | h
        · rw [hz] at h; exact absurd h (by simp)
        · exact h
      rw [search_index_zone, if_neg (by simp [h1])]
      simp [h2, h3, hz, hcol, h5]
    · have hupd : req.update = false := h6 hz
      rw [search_index_zone, if_neg (by simp [h1])]
      simp [h2, h3, hz, h5, hupd]
  refine ⟨heq.1, ?_⟩
  rw [heq.2]
  intro a ha
  simp only [List.mem_cons, List.mem_singleton, List.not_mem_nil] at ha
  rcases ha with rfl | rfl | h
  · rfl
  · rfl
  · simp at h

/-- A sample `search_index_zone` oracle: the record is found in the
    master index and confirmed in its chapter. -/
def sampleSearchEnv : SearchEnv :=
  { get_record_result := UDS_SUCCESS
    record := { isFound := true, isCollision := false, virtualChapter := 4 }
    get_from_zone_result := UDS_SUCCESS
    zone_found := true
    region := LOC_IN_DENSE
    is_sample := false
    sparse_search_result := UDS_SUCCESS
    sparse_found := false
    set_chapter_result := UDS_SUCCESS
    put_result := UDS_SUCCESS
    put_in_zone_result := UDS_SUCCESS }

/-- A sample query request. -/
def sampleQuery : Request :=
  { action := REQUEST_QUERY
    update := false
    requeued := false
    location := LOC_UNAVAILABLE }

/-- Claim C7 witness at concrete inputs. -/
theorem search_query_no_mutation_witness :
    (search_index_zone sampleSearchEnv sampleIndex.geometry 7
        sampleQuery).1 = UDS_SUCCESS ∧
    ∀ a ∈ (search_index_zone sampleSearchEnv sampleIndex.geometry 7
        sampleQuery).2.2, a.isMutation = false :=
  search_query_no_mutation sampleSearchEnv sampleIndex.geometry 7
    sampleQuery rfl rfl rfl (Or.inl rfl) rfl (fun _ => rfl)

/-- Claim C8: when `setMasterIndexRecordChapter` or
    `putMasterIndexRecord` returns `UDS_OVERFLOW` inside
    `search_index_zone`, the function returns success and skips the
    open-chapter insertion (`putRecordInZone` is not called), leaving the
    name un-indexed for this request. -/
theorem search_overflow_skips_insert :
    (∀ (env : SearchEnv) (g : IndexGeometry) (nvc : Nat) (req : Request),
      env.get_record_result = UDS_SUCCESS →
      env.get_from_zone_result = UDS_SUCCESS →
      env.record.isFound = true →
      (env.zone_found = true ∨ env.record.isCollision = true) →
      ¬(req.action = REQUEST_QUERY ∧
        (req.update = false ∨
          (env.record.isCollision = true ∧ env.zone_found = false))) →
      env.record.virtualChapter ≠ nvc →
      env.set_chapter_result = UDS_OVERFLOW →
      (search_index_zone env g nvc req).1 = UDS_SUCCESS ∧
      ∀ b, ZoneAction.putRecordInZone b ∉
        (search_index_zone env g nvc req).2.2) ∧
    (∀ (env : SearchEnv) (g : IndexGeometry) (nvc : Nat) (req : Request),
      env.get_record_result = UDS_SUCCESS →
      env.record.isFound = false →
      (env.is_sample = false ∧ is_sparse g = true →
        env.sparse_search_result = UDS_SUCCESS) →
      ¬(req.action = REQUEST_QUERY ∧
        (¬(env.is_sample = false ∧ is_sparse g = true ∧
            env.sparse_found = true) ∨ req.update = false)) →
      env.put_result = UDS_OVERFLOW →
      (search_index_zone env g nvc req).1 = UDS_SUCCESS ∧
      ∀ b, ZoneAction.putRecordInZone b ∉
        (search_index_zone env g nvc req).2.2) := by
  constructor
  · intro env g nvc req h1 h2 h3 h4 h5 h6 h7
    rw [search_index_zone, if_neg (by simp [h1])]
    rcases hz : env.zone_found with _ | _
    · have hcol : env.record.isCollision = true := by
        rcases h4 with h | h
        · rw [hz] at h; exact absurd h (by simp)
        · exact h
      have hact : ¬(req.action = REQUEST_QUERY) := fun hq =>
        h5 ⟨hq, Or.inr ⟨hcol, hz⟩⟩
      simp [h2, h3, hz, hcol, hact, h6, search_zone_finish, h7]
    · by_cases hact : req.action = REQUEST_QUERY
      · have hupd : req.update = true := by
          rcases hu : req.update with _ | _
          · exact absurd ⟨hact, Or.inl hu⟩ h5
          · rfl
        simp [h2, h3, hz, hact, hupd, h6, search_zone_finish, h7]
      · simp [h2, h3, hz, hact, h6, search_zone_finish, h7]
  · intro env g nvc req h1 h2 h3 h4 h5
    rw [search_index_zone, if_neg (by simp [h1])]
    by_cases hds : env.is_sample = false ∧ is_sparse g = true
    · have hsp := h3 hds
      by_cases hact : req.action = REQUEST_QUERY
      · have hcond : env.sparse_found = true ∧ req.update = true := by
          constructor
          · rcases hf : env.sparse_found with _ | _
            · exact absurd ⟨hact, Or.inl (by simp [hds.1, hds.2, hf])⟩ h4
            · rfl
          · rcases hu : req.update with _ | _
            · exact absurd ⟨hact, Or.inr hu⟩ h4
            · rfl
        simp [h2, hds.1, hds.2, hsp, hact, hcond.1, hcond.2,
          search_zone_finish, h5]
      · rcases hf : env.sparse_found with _ | _ <;>
          simp [h2, hds.1, hds.2, hsp, hact, hf, search_zone_finish, h5]
    · have hact : ¬(req.action = REQUEST_QUERY) := by
        intro hq
        refine h4 ⟨hq, Or.inl ?_⟩
        intro ⟨ha, hb, _⟩
        exact hds ⟨ha, hb⟩
      rcases hs : env.is_sample with _ | _ <;>
        rcases hg : is_sparse g with _ | _ <;>
        simp_all [search_zone_finish]
  
/-- A search oracle whose set-chapter call overflows. -/
def sampleSearchOverflowSet : SearchEnv :=
  { sampleSearchEnv with set_chapter_result := UDS_OVERFLOW }

/-- A search oracle whose put call overflows (record not found). -/
def sampleSearchOverflowPut : SearchEnv :=
  { sampleSearchEnv with
    record := { isFound := false, isCollision := false, virtualChapter := 0 }
    is_sample := true
    put_result := UDS_OVERFLOW }

/-- A sample plain-index request. -/
def sampleIndexReq : Request :=
  { action := REQUEST_INDEX
    update := false
    requeued := false
    location := LOC_UNAVAILABLE }

/-- Claim C8 witness at concrete inputs. -/
theorem search_overflow_skips_insert_witness :
    ((search_index_zone sampleSearchOverflowSet sampleIndex.geometry 7
        sampleIndexReq).1 = UDS_SUCCESS ∧
      ∀ b, ZoneAction.putRecordInZone b ∉
        (search_index_zone sampleSearchOverflowSet sampleIndex.geometry 7
          sampleIndexReq).2.2) ∧
    ((search_index_zone sampleSearchOverflowPut sampleIndex.geometry 7
        sampleIndexReq).1 = UDS_SUCCESS ∧
      ∀ b, ZoneAction.putRecordInZone b ∉
        (search_index_zone sampleSearchOverflowPut sampleIndex.geometry 7
          sampleIndexReq).2.2) :=
  ⟨search_overflow_skips_insert.1 sampleSearchOverflowSet
      sampleIndex.geometry 7 sampleIndexReq rfl rfl rfl (Or.inl rfl)
      (by decide) (by decide) rfl,
   search_overflow_skips_insert.2 sampleSearchOverflowPut
      sampleIndex.geometry 7 sampleIndexReq rfl rfl (by decide)
      (by decide) rfl⟩

/-- Claim C9: `remove_from_index_zone` returns success touching nothing
    when the lookup finds no record, and likewise when a non-collision
    record is not confirmed in its chapter by the volume; otherwise it
    sets the request location, removes the master-index record, and — if
    the location was the open chapter — also removes the name from the
    open chapter, asserting that the name was present there. -/
theorem remove_zone_cases :
    (∀ (env : RemoveEnv) (req : Request),
      env.get_record_result = UDS_SUCCESS →
      env.record.isFound = false →
      remove_from_index_zone env req =
        (UDS_SUCCESS, req, [ZoneAction.getRecord])) ∧
    (∀ (env : RemoveEnv) (req : Request),
      env.get_record_result = UDS_SUCCESS →
      env.record.isFound = true →
      env.record.isCollision = false →
      env.get_from_zone_result = UDS_SUCCESS →
      env.zone_found = false →
      remove_from_index_zone env req =
        (UDS_SUCCESS, req,
          [ZoneAction.getRecord,
           ZoneAction.getRecordFromZone env.record.virtualChapter])) ∧
    (∀ (env : RemoveEnv) (req : Request),
      env.get_record_result = UDS_SUCCESS →
      env.record.isFound = true →
      (env.record.isCollision = true ∨
        (env.get_from_zone_result = UDS_SUCCESS ∧
          env.zone_found = true)) →
      env.remove_record_result = UDS_SUCCESS →
      (remove_from_index_zone env req).2.1.location = env.region ∧
      ZoneAction.removeRecord ∈ (remove_from_index_zone env req).2.2 ∧
      (env.region = LOC_IN_OPEN_CHAPTER →
        ZoneAction.removeFromOpenChapter ∈
          (remove_from_index_zone env req).2.2 ∧
        (env.open_chapter_hash_exists = true →
          (remove_from_index_zone env req).1 = UDS_SUCCESS) ∧
        (env.open_chapter_hash_exists = false →
          (remove_from_index_zone env req).1 = UDS_ASSERTION_FAILED)) ∧
      (env.region ≠ LOC_IN_OPEN_CHAPTER →
        (remove_from_index_zone env req).1 = UDS_SUCCESS ∧
        ZoneAction.removeFromOpenChapter ∉
          (remove_from_index_zone env req).2.2)) := by
  refine ⟨?_, ?_, ?_⟩
  · intro env req h1 h2
    rw [remove_from_index_zone, if_neg (by simp [h1]),
      if_pos (by simp [h2])]
  · intro env req h1 h2 h3 h4 h5
    rw [remove_from_index_zone, if_neg (by simp [h1]),
      if_neg (by simp [h2])]
    simp [h3, h4, h5]
  · intro env req h1 h2 h3 h4
    have hconf : remove_from_index_zone env req =
        (let request1 := { req with location := env.region }
         let acts := (if ¬env.record.isCollision = true then
            [ZoneAction.getRecord,
             ZoneAction.getRecordFromZone env.record.virtualChapter]
          else [ZoneAction.getRecord]) ++ [ZoneAction.removeRecord]
         if request1.location = LOC_IN_OPEN_CHAPTER then
           if ¬env.open_chapter_hash_exists then
             (UDS_ASSERTION_FAILED, request1,
               acts ++ [ZoneAction.removeFromOpenChapter])
           else
             (UDS_SUCCESS, request1,
               acts ++ [ZoneAction.removeFromOpenChapter])
         else (UDS_SUCCESS, request1, acts)) := by
      rcases h3 with hcol | ⟨hgz, hzf⟩
      · rw [remove_from_index_zone, if_neg (by simp [h1]),
          if_neg (by simp [h2])]
        simp [hcol, h4]
      · rw [remove_from_index_zone, if_neg (by simp [h1]),
          if_neg (by simp [h2])]
        rcases hcol : env.record.isCollision with _ | _ <;>
          simp [hcol, hgz, hzf, h4]
    rw [hconf]
    by_cases hreg : env.region = LOC_IN_OPEN_CHAPTER
    · rcases hcol : env.record.isCollision with _ | _ <;>
        rcases hhe : env.open_chapter_hash_exists with _ | _ <;>
        simp [hcol, hreg, hhe]
    · rcases hcol : env.record.isCollision with _ | _ <;>
        simp [hcol, hreg]

/-- A sample remove oracle: a confirmed non-collision record located in
    the open chapter. -/
def sampleRemoveEnv : RemoveEnv :=
  { get_record_result := UDS_SUCCESS
    record := { isFound := true, isCollision := false, virtualChapter := 4 }
    get_from_zone_result := UDS_SUCCESS
    zone_found := true
    region := LOC_IN_OPEN_CHAPTER
    remove_record_result := UDS_SUCCESS
    open_chapter_hash_exists := true }

/-- Claim C9 witness at concrete inputs. -/
theorem remove_zone_cases_witness :
    remove_from_index_zone
        { sampleRemoveEnv with
          record := { isFound := false, isCollision := false,
                      virtualChapter := 0 } } sampleQuery =
      (UDS_SUCCESS, sampleQuery, [ZoneAction.getRecord]) ∧
    (remove_from_index_zone sampleRemoveEnv sampleQuery).2.1.location =
      sampleRemoveEnv.region ∧
    ZoneAction.removeRecord ∈
      (remove_from_index_zone sampleRemoveEnv sampleQuery).2.2 :=
  ⟨remove_zone_cases.1
      { sampleRemoveEnv with
        record := { isFound := false, isCollision := false,
                    virtualChapter := 0 } } sampleQuery rfl rfl,
   (remove_zone_cases.2.2 sampleRemoveEnv sampleQuery rfl rfl
      (Or.inr ⟨rfl, rfl⟩) rfl).1,
   (remove_zone_cases.2.2 sampleRemoveEnv sampleQuery rfl rfl
      (Or.inr ⟨rfl, rfl⟩) rfl).2.1⟩

/-- Frame helper: when the master-index lookup finds nothing and the
    sparse search finds nothing, `search_index_zone` returns the request
    unchanged. -/
theorem search_index_zone_keeps_request (env : SearchEnv)
    (g : IndexGeometry) (nvc : Nat) (req : Request)
    (h1 : env.record.isFound = false) (h2 : env.sparse_found = false) :
    (search_index_zone env g nvc req).2.1 = req := by
  rw [search_index_zone]
  split
  · rfl
  · simp [h1, h2, search_zone_finish]
    repeat' first | rfl | split

/-- Frame helper: when the master-index lookup finds nothing,
    `remove_from_index_zone` returns the request unchanged. -/
theorem remove_from_index_zone_keeps_request (env : RemoveEnv)
    (req : Request) (h1 : env.record.isFound = false) :
    (remove_from_index_zone env req).2.1 = req := by
  rw [remove_from_index_zone]
  split
  · rfl
  · rw [if_pos (by simp [h1])]

/-- Claim C10: `dispatch_index_zone_request` resets `request.location` to
    `LOC_UNAVAILABLE` before performing the action, so a request of any
    action whose name is located nowhere returns with
    `location = LOC_UNAVAILABLE` regardless of the stale value a previous
    request left behind. -/
theorem dispatch_resets_location :
    ∀ (env : DispatchEnv) (req : Request),
      (req.requeued = true ∨ env.barrier_result = UDS_SUCCESS) →
      env.search.record.isFound = false →
      env.search.sparse_found = false →
      env.remove.record.isFound = false →
      (dispatch_index_zone_request env req).2.location =
        LOC_UNAVAILABLE := by
  intro env req hbar h1 h2 h3
  obtain ⟨act, upd, rqd, loc⟩ := req
  have hguard : ¬(¬rqd = true ∧ env.barrier_result ≠ UDS_SUCCESS) := by
    rcases hbar with h | h <;> simp_all
  rw [dispatch_index_zone_request, if_neg hguard]
  rcases act with _ | _ | _ | _ | code
  · rcases hs : search_index_zone env.search env.geometry
        env.newestVirtualChapter
        { action := REQUEST_INDEX, update := upd, requeued := rqd,
          location := LOC_UNAVAILABLE } with ⟨r, rq, tr⟩
    have hl := search_index_zone_keeps_request env.search env.geometry
      env.newestVirtualChapter
      { action := REQUEST_INDEX, update := upd, requeued := rqd,
        location := LOC_UNAVAILABLE } h1 h2
    rw [hs] at hl
    simp only [] at hl
    simp [hs, hl]
  · rcases hs : search_index_zone env.search env.geometry
        env.newestVirtualChapter
        { action := REQUEST_UPDATE, update := upd, requeued := rqd,
          location := LOC_UNAVAILABLE } with ⟨r, rq, tr⟩
    have hl := search_index_zone_keeps_request env.search env.geometry
      env.newestVirtualChapter
      { action := REQUEST_UPDATE, update := upd, requeued := rqd,
        location := LOC_UNAVAILABLE } h1 h2
    rw [hs] at hl
    simp only [] at hl
    simp [hs, hl]
  · rcases hs : search_index_zone env.search env.geometry
        env.newestVirtualChapter
        { action := REQUEST_QUERY, update := upd, requeued := rqd,
          location := LOC_UNAVAILABLE } with ⟨r, rq, tr⟩
    have hl := search_index_zone_keeps_request env.search env.geometry
      env.newestVirtualChapter
      { action := REQUEST_QUERY, update := upd, requeued := rqd,
        location := LOC_UNAVAILABLE } h1 h2
    rw [hs] at hl
    simp only [] at hl
    simp [hs, hl]
  · rcases hs : remove_from_index_zone env.remove
        { action := REQUEST_DELETE, update := upd, requeued := rqd,
          location := LOC_UNAVAILABLE } with ⟨r, rq, tr⟩
    have hl := remove_from_index_zone_keeps_request env.remove
      { action := REQUEST_DELETE, update := upd, requeued := rqd,
        location := LOC_UNAVAILABLE } h3
    rw [hs] at hl
    simp only [] at hl
    simp [hs, hl]
  · rfl

/-- A dispatch oracle whose lookups find nothing anywhere. -/
def sampleDispatchEnv : DispatchEnv :=
  { barrier_result := UDS_SUCCESS
    search :=
      { sampleSearchEnv with
        record := { isFound := false, isCollision := false,
                    virtualChapter := 0 } }
    remove :=
      { sampleRemoveEnv with
        record := { isFound := false, isCollision := false,
                    virtualChapter := 0 } }
    geometry := { chapters_per_volume := 8
                  sparse_chapters_per_volume := 0 }
    newestVirtualChapter := 7 }

/-- Claim C10 witness at a concrete input with a stale location. -/
theorem dispatch_resets_location_witness :
    (dispatch_index_zone_request sampleDispatchEnv
        { action := REQUEST_QUERY, update := false, requeued := false,
          location := LOC_IN_DENSE }).2.location = LOC_UNAVAILABLE :=
  dispatch_resets_location sampleDispatchEnv
    { action := REQUEST_QUERY, update := false, requeued := false,
      location := LOC_IN_DENSE } (Or.inr rfl) rfl rfl rfl

